import Mathlib

/-!
Verification of the `beout` terminal-output library (src/beout/terminal.py).

The Python source is shallowly embedded: every stateful class becomes a
structure, every method a pure function returning the new state together with
the list of observable output events (raw writes to the underlying file
descriptor and mirrored lines sent to the `beout` logger).  Background
threads are modelled in two ways: their main-thread-visible effects (what
`stop()` does on the calling thread) are part of the sequential embedding,
and the spinner thread's write loop is additionally modelled as an explicit
interleaving step relation to reason about the stop/write race.
-/

/-- The ASCII escape character 0x1B, written `\x1b` in the Python source. -/
def esc : Char := '\x1b'

/-- One step of the search performed by the regex `\x1b[^m]*m` after an ESC:
drop characters up to and including the first `m`; `none` when no `m` follows
(in which case the regex does not match at that ESC). -/
def dropThroughM : List Char → Option (List Char)
  | [] => none
  | c :: cs => if c = 'm' then some cs else dropThroughM cs

/-- Fuel-indexed core of `strip_ansi` (terminal.py:22-24): substitute every
non-overlapping match of `\x1b[^m]*m` by the empty string, scanning left to
right.  The fuel is only a structural-recursion device; it never runs out
when it starts at the length of the list, because every recursive call
removes at least one character. -/
def stripAnsiGo : Nat → List Char → List Char
  | 0, cs => cs
  | _ + 1, [] => []
  | fuel + 1, c :: cs =>
    if c = esc then
      match dropThroughM cs with
      | some cs2 => stripAnsiGo fuel cs2
      | none => c :: stripAnsiGo fuel cs
    else c :: stripAnsiGo fuel cs

/-- `strip_ansi` (terminal.py:22-24): remove the SGR escape sequences matched
by the regex `\x1b[^m]*m`. -/
def strip_ansi (s : String) : String := String.mk (stripAnsiGo s.data.length s.data)

/-- `termcolor.colored` restricted to how this program uses it: wrap the text
in an SGR color sequence `\x1b[<code>m` and the reset sequence `\x1b[0m`.
The color table tweak at terminal.py:17-19 makes `grey` render as code 90. -/
def colored (code : Nat) (text : String) : String :=
  "\x1b[" ++ toString code ++ "m" ++ text ++ "\x1b[0m"

/-- `TerminalWriterConfig.box_style` (terminal.py:74): magenta, SGR code 35. -/
def TerminalWriterConfig.box_style : String → String := colored 35

/-- `TerminalWriterConfig.timestamp_bracket_style` (terminal.py:77): white, code 37. -/
def TerminalWriterConfig.timestamp_bracket_style : String → String := colored 37

/-- `TerminalWriterConfig.timestamp_style` (terminal.py:78): grey, remapped to code 90. -/
def TerminalWriterConfig.timestamp_style : String → String := colored 90

/-- `TerminalWriterConfig.substeps_style` (terminal.py:80): grey, code 90. -/
def TerminalWriterConfig.substeps_style : String → String := colored 90

/-- `TerminalWriterConfig.progress_dot_style` (terminal.py:82): grey, code 90. -/
def TerminalWriterConfig.progress_dot_style : String → String := colored 90

/-- `TerminalWriterConfig.eta_style` (terminal.py:84): grey, code 90. -/
def TerminalWriterConfig.eta_style : String → String := colored 90

/-- Observable output events: a raw write on the wrapped file descriptor
(`self.context.fd.write`), or one completed line mirrored to the `beout`
logger (`self._logger.info`). -/
inductive Ev where
  | fdWrite (s : String)
  | logInfo (s : String)
deriving Repr, DecidableEq

/-- Number of lines mirrored to the logger in an event list. -/
def logCount (evs : List Ev) : Nat :=
  evs.countP fun e => match e with | .logInfo _ => true | .fdWrite _ => false

/-- Number of newline characters written to the file descriptor in an event list. -/
def countNewlines (evs : List Ev) : Nat :=
  (evs.map fun e => match e with | .fdWrite s => s.data.count '\n' | .logInfo _ => 0).sum

/-- `NewLineManager` state (terminal.py:43-51): whether the cursor sits at the
start of a fresh line, and the raw text accumulated on the current line. -/
structure NewLineManager where
  are_we_on_new_line : Bool
  line : String
deriving Repr, DecidableEq

/-- `NewLineManager.write` (terminal.py:53-59).  Note that the local `s` is
reassigned to its ANSI-stripped form before being written and appended, so on
a non-interactive destination the pending-line buffer accumulates the
stripped text, not the raw text. -/
def NewLineManager.write (m : NewLineManager) (isatty : Bool) (s : String) :
    NewLineManager × List Ev :=
  if 0 < s.length then
    let s2 := if isatty then s else strip_ansi s
    (⟨false, m.line ++ s2⟩, [Ev.fdWrite s2])
  else (m, [])

/-- `NewLineManager.new_line` (terminal.py:61-67). -/
def NewLineManager.new_line (m : NewLineManager) (force skip_log : Bool) :
    NewLineManager × List Ev :=
  if force || !m.are_we_on_new_line then
    (⟨true, ""⟩,
      Ev.fdWrite "\n" :: if skip_log then [] else [Ev.logInfo (strip_ansi m.line)])
  else (m, [])

/-- `Substeps` state (terminal.py:87-99): `current` and `steps` are Python
ints; the inactive state is `current = 0, steps = -1`. -/
structure Substeps where
  current : Int
  steps : Int
deriving Repr, DecidableEq

/-- `Substeps.str` (terminal.py:101-107): render `(current/steps) ` in the
substeps style and advance, or return the empty string once `current` has
passed `steps`. -/
def Substeps.str (s : Substeps) : String × Substeps :=
  if s.current > s.steps then ("", s)
  else
    (TerminalWriterConfig.substeps_style
        ("(" ++ toString s.current ++ "/" ++ toString s.steps ++ ") "),
      ⟨s.current + 1, s.steps⟩)

/-- `Substeps.start` (terminal.py:109-111). -/
def Substeps.start (_ : Substeps) (n : Int) : Substeps := ⟨1, n⟩

/-- `Substeps.reset` (terminal.py:113-115). -/
def Substeps.reset (_ : Substeps) : Substeps := ⟨0, -1⟩

/-- A run of `n` copies of one character, modelling Python string repetition. -/
def repChar (n : Nat) (c : Char) : String := String.mk (List.replicate n c)

/-- Modelled from the spec: `humanize.naturaldelta`, an external collaborator
(spec section 6) producing an opaque human-readable duration string; no
theorem below depends on its value. -/
def naturaldelta (n : Int) : String := toString n

/-- `EtaThread` mutable state (terminal.py:166-174).  `elapsed` is advanced
concurrently by the run loop; the sequential embedding only uses whatever
value it holds when the main thread calls `stop`. -/
structure EtaThread where
  line : String
  eta : Int
  elapsed : Int
  last_printed : String
deriving Repr, DecidableEq

/-- `EtaThread._write` (terminal.py:176-179): blank the previously printed
text (measured after ANSI stripping), carriage-return, then print the line
prefix plus the new suffix, remembering it as `last_printed`. -/
def EtaThread.write (isatty : Bool) (m : NewLineManager) (e : EtaThread)
    (suffix : String) : EtaThread × NewLineManager × List Ev :=
  let rBlank := m.write isatty ("\r" ++ repChar (strip_ansi e.last_printed).length ' ' ++ "\r")
  let lp := e.line ++ " " ++ suffix
  let rPrint := rBlank.1.write isatty lp
  (⟨e.line, e.eta, e.elapsed, lp⟩, rPrint.1, rBlank.2 ++ rPrint.2)

/-- `EtaThread.stop` (terminal.py:188-190): set the stop event (not modelled
sequentially: it only signals the loop, without joining it) and perform the
final `(Finished in ...)` overwrite on the calling thread. -/
def EtaThread.stop (isatty : Bool) (m : NewLineManager) (e : EtaThread) :
    EtaThread × NewLineManager × List Ev :=
  EtaThread.write isatty m e
    (TerminalWriterConfig.eta_style ("(Finished in " ++ naturaldelta e.elapsed ++ ")"))

/-- `Eta.reset` (terminal.py:206-209): stop the running `EtaThread`, if any,
which performs its final overwrite on the calling thread, then drop it. -/
def Eta.reset (isatty : Bool) (m : NewLineManager) (th : Option EtaThread) :
    Option EtaThread × NewLineManager × List Ev :=
  match th with
  | none => (none, m, [])
  | some e =>
    let r := EtaThread.stop isatty m e
    (none, r.2.1, r.2.2)

/-- `Eta.start` (terminal.py:201-204): reset any previous thread, then create
a fresh `EtaThread` with `elapsed = 0` and nothing printed yet.  The writes
the new thread's run loop performs happen on the background thread and are
not part of the sequential embedding. -/
def Eta.start (isatty : Bool) (m : NewLineManager) (th : Option EtaThread)
    (line : String) (seconds : Int) : Option EtaThread × NewLineManager × List Ev :=
  let r := Eta.reset isatty m th
  (some ⟨line, seconds, 0, ""⟩, r.2.1, r.2.2)

/-- `TerminalWriter` state (terminal.py:283-302): the shared context's
`isatty` flag, the `NewLineManager`, the `Substeps` counter, whether a
`DotterThread` is running (its loop writes concurrently and is modelled
separately as a step relation), and the running `EtaThread`, if any. -/
structure TerminalWriter where
  isatty : Bool
  out : NewLineManager
  steps : Substeps
  dotter : Bool
  etaTh : Option EtaThread
deriving Repr, DecidableEq

/-- A fresh `TerminalWriter()` (terminal.py:288-302): at line start, empty
pending line, inactive substeps, no running animation. -/
def TerminalWriter.init (isatty : Bool) : TerminalWriter :=
  ⟨isatty, ⟨true, ""⟩, ⟨0, -1⟩, false, none⟩

/-- `TerminalWriter._timestamp` (terminal.py:315-320), with the formatted
clock string passed in as a parameter because `datetime.now()` is external. -/
def TerminalWriter.timestamp (ts : String) : String :=
  TerminalWriterConfig.timestamp_bracket_style "[" ++
    TerminalWriterConfig.timestamp_style ts ++
    TerminalWriterConfig.timestamp_bracket_style "]"

/-- `TerminalWriter.line` (terminal.py:322-323): timestamp, space, substep
prefix (advancing the counter), then the text. -/
def TerminalWriter.line (w : TerminalWriter) (ts text : String) : String × Substeps :=
  let sub := Substeps.str w.steps
  (TerminalWriter.timestamp ts ++ " " ++ sub.1 ++ text, sub.2)

/-- The common prologue every rendering operation of the facade performs:
`Dotter.reset` (which only flags the spinner thread to stop, producing no
output on the calling thread), `Eta.reset`, and a non-forced `new_line`. -/
def TerminalWriter.stopAndFlush (w : TerminalWriter) : TerminalWriter × List Ev :=
  let rEta := Eta.reset w.isatty w.out w.etaTh
  let rNl := NewLineManager.new_line rEta.2.1 false false
  (⟨w.isatty, rNl.1, w.steps, false, rEta.1⟩, rEta.2.2 ++ rNl.2)

/-- `TerminalWriter.msg` (terminal.py:325-329): stop both animations, flush a
pending newline, render the timestamped line. -/
def TerminalWriter.msg (w : TerminalWriter) (ts text : String) : TerminalWriter × List Ev :=
  let rEta := Eta.reset w.isatty w.out w.etaTh
  let rNl := NewLineManager.new_line rEta.2.1 false false
  let lr := TerminalWriter.line ⟨w.isatty, rNl.1, w.steps, false, rEta.1⟩ ts text
  let rW := NewLineManager.write rNl.1 w.isatty lr.1
  (⟨w.isatty, rW.1, lr.2, false, rEta.1⟩, rEta.2.2 ++ rNl.2 ++ rW.2)

/-- `TerminalWriter.box` (terminal.py:304-313): reset substeps and both
animations, flush a pending newline, then write the three-line box sized to
the stripped width of the text. -/
def TerminalWriter.box (w : TerminalWriter) (text : String) : TerminalWriter × List Ev :=
  let rEta := Eta.reset w.isatty w.out w.etaTh
  let rNl := NewLineManager.new_line rEta.2.1 false false
  let stripped := strip_ansi text
  let content :=
    TerminalWriterConfig.box_style ("┌" ++ repChar (stripped.length + 2) '─' ++ "┐") ++
    "\n" ++ TerminalWriterConfig.box_style "│ " ++ text ++
    TerminalWriterConfig.box_style " │" ++ "\n" ++
    TerminalWriterConfig.box_style ("└" ++ repChar (stripped.length + 2) '─' ++ "┘")
  let rW := NewLineManager.write rNl.1 w.isatty content
  (⟨w.isatty, rW.1, Substeps.reset w.steps, false, rEta.1⟩, rEta.2.2 ++ rNl.2 ++ rW.2)

/-- `TerminalWriter.eta` (terminal.py:331-335): stop both animations, flush a
pending newline, then hand the rendered line prefix to a fresh `EtaThread`. -/
def TerminalWriter.eta (w : TerminalWriter) (ts text : String) (seconds : Int) :
    TerminalWriter × List Ev :=
  let rEta := Eta.reset w.isatty w.out w.etaTh
  let rNl := NewLineManager.new_line rEta.2.1 false false
  let lr := TerminalWriter.line ⟨w.isatty, rNl.1, w.steps, false, rEta.1⟩ ts text
  let rStart := Eta.start w.isatty rNl.1 rEta.1 lr.1 seconds
  (⟨w.isatty, rStart.2.1, lr.2, false, rStart.1⟩, rEta.2.2 ++ rNl.2 ++ rStart.2.2)

/-- `TerminalWriter.substeps` (terminal.py:337-338): arm the counter only;
no animation is stopped and no newline is forced. -/
def TerminalWriter.substeps (w : TerminalWriter) (n : Int) : TerminalWriter × List Ev :=
  (⟨w.isatty, w.out, Substeps.start w.steps n, w.dotter, w.etaTh⟩, [])

/-- `TerminalWriter.progress_dot_every_n_seconds` (terminal.py:340-341):
`Dotter.start` flags only a previous spinner thread to stop and launches a
new one; the countdown task and the pending line are untouched. -/
def TerminalWriter.progress_dot_every_n_seconds (w : TerminalWriter) (_ : Int) :
    TerminalWriter × List Ev :=
  (⟨w.isatty, w.out, w.steps, true, w.etaTh⟩, [])

/-- `TerminalWriter.done` (terminal.py:354-358). -/
def TerminalWriter.done (w : TerminalWriter) : TerminalWriter × List Ev :=
  let rEta := Eta.reset w.isatty w.out w.etaTh
  let rNl := NewLineManager.new_line rEta.2.1 false false
  (⟨w.isatty, rNl.1, Substeps.reset w.steps, false, rEta.1⟩, rEta.2.2 ++ rNl.2)

/-- The three scroll-session variants selected by `scroll_lines`
(terminal.py:343-352). -/
inductive Scroller where
  | dontScroll
  | devNull
  | scroll (n : Int)
deriving Repr, DecidableEq

/-- `TerminalWriter.scroll_lines` (terminal.py:343-352): call `done()`, then
pick the variant from the requested line count and interactivity. -/
def TerminalWriter.scroll_lines (w : TerminalWriter) (n : Int) (_ : Bool) :
    (Scroller × TerminalWriter) × List Ev :=
  let r := TerminalWriter.done w
  let sc := if n = -1 ∨ r.1.isatty = false then Scroller.dontScroll
            else if n = 0 then Scroller.devNull
            else Scroller.scroll n
  ((sc, r.1), r.2)

/-- Python slice `l[k:]` for a possibly negative start index `k`, used by
`ScrollOutput.write` as `new_lines[-self._line_count:]`. -/
def pySliceFrom (k : Int) (l : List α) : List α :=
  if 0 ≤ k then l.drop k.toNat else l.drop (l.length - (-k).toNat)

/-- The most recent `n` elements of a list. -/
def takeLast (n : Nat) (l : List α) : List α := l.drop (l.length - n)

/-- Fuel-indexed chunker for one overlong line, mirroring the in-place
splitting loop of `_split_and_break_into_lines` (terminal.py:241-251): while
the line is wider than `width`, cut off a `width`-sized chunk and continue on
the remainder.  The fuel (started at the line length) is only a structural
recursion device.  When `width = 0` the Python loop does not terminate; the
guard keeps that unreachable case total here. -/
def breakChunksGo (width : Nat) : Nat → List Char → List (List Char)
  | 0, cs => [cs]
  | fuel + 1, cs =>
    if 0 < width ∧ width < cs.length then
      cs.take width :: breakChunksGo width fuel (cs.drop width)
    else [cs]

/-- Chunking of one line into `width`-sized pieces, last piece possibly
shorter (terminal.py:241-251). -/
def breakChunks (width : Nat) (cs : List Char) : List (List Char) :=
  breakChunksGo width cs.length cs

/-- `ScrollOutput._split_and_break_into_lines` (terminal.py:241-251): split
on literal newlines, then chunk each overlong line; the console width probe
(`stty size`, an external collaborator) is passed in as `width`. -/
def ScrollOutput.split_and_break_into_lines (width : Nat) (txt : String) : List String :=
  ((txt.splitOn "\n").map fun ln => (breakChunks width ln.data).map String.mk).flatten

/-- The cursor-up escape sequence written by `_move_cursor_up`
(terminal.py:253-254) directly on the file descriptor. -/
def cursorUp (n : Nat) : String := "\x1b[" ++ toString n ++ "A"

/-- `ScrollOutput` state (terminal.py:212-216). -/
structure ScrollOutput where
  line_count : Int
  lines : List String
deriving Repr, DecidableEq

/-- The redraw loop body of `ScrollOutput.write` (terminal.py:234-238): for
each new line, blank the previous line at that row if one existed, write the
new content, and force an unmirrored newline. -/
def ScrollOutput.redraw (isatty : Bool) : List String → List String → NewLineManager →
    NewLineManager × List Ev
  | [], _, m => (m, [])
  | ln :: ns, olds, m =>
    let rBlank := match olds with
      | o :: _ => NewLineManager.write m isatty (repChar o.length ' ' ++ "\r")
      | [] => (m, [])
    let rW := NewLineManager.write rBlank.1 isatty ln
    let rNl := NewLineManager.new_line rW.1 true true
    let rRest := ScrollOutput.redraw isatty ns (olds.drop 1) rNl.1
    (rRest.1, rBlank.2 ++ rW.2 ++ rNl.2 ++ rRest.2)

/-- `ScrollOutput.write` (terminal.py:230-239): append the split-and-chunked
text, keep the slice `[-line_count:]`, move the cursor to the top of the old
region (a raw escape-sequence write bypassing the `NewLineManager`), and
redraw every buffered line. -/
def ScrollOutput.write (width : Nat) (isatty : Bool) (s : ScrollOutput)
    (m : NewLineManager) (txt : String) : ScrollOutput × NewLineManager × List Ev :=
  let new_lines := pySliceFrom (-s.line_count)
    (s.lines ++ ScrollOutput.split_and_break_into_lines width txt)
  let moveEv : List Ev :=
    if 0 < s.lines.length then [Ev.fdWrite (cursorUp s.lines.length)] else []
  let r := ScrollOutput.redraw isatty new_lines s.lines m
  (⟨s.line_count, new_lines⟩, r.1, moveEv ++ r.2)

/-- `DontScrollOutput.write` (terminal.py:265-271): pass each pushed chunk
straight through with a trailing newline, keeping no state. -/
def DontScrollOutput.write (isatty : Bool) (m : NewLineManager) (txt : String) :
    NewLineManager × List Ev :=
  NewLineManager.write m isatty (txt ++ "\n")

/-- `DevNullScroller.write` (terminal.py:274-280): drop the pushed text. -/
def DevNullScroller.write (m : NewLineManager) (_ : String) :
    NewLineManager × List Ev := (m, [])

/-- Program counter of the `DotterThread` run loop (terminal.py:130-133):
about to test the stop event, about to write the styled dot, sleeping, or
exited. -/
inductive DotterPC where
  | check
  | emit
  | sleep
  | exited
deriving Repr, DecidableEq

/-- Joint state of the `DotterThread` run loop and the main thread that calls
`DotterThread.stop` (terminal.py:130-136): whether the `threading.Event` has
been set, whether the `stop()` call has already returned to its caller, and
how many dots the loop wrote after `stop()` returned. -/
structure DotterRace where
  pc : DotterPC
  stopRequested : Bool
  stopReturned : Bool
  dotsAfterStop : Nat
deriving Repr, DecidableEq

/-- Interleaving semantics of the spinner loop against `stop()`.  The loop
(terminal.py:131-133) atomically tests `self._stop.is_set()`, then writes
`self._style('.')`, then sleeps; `stop()` (terminal.py:135-136) atomically
sets the event and immediately returns, without joining the thread. -/
inductive DotterStep : DotterRace → DotterRace → Prop where
  | observeStop (s : DotterRace) : s.pc = DotterPC.check → s.stopRequested = true →
      DotterStep s ⟨DotterPC.exited, s.stopRequested, s.stopReturned, s.dotsAfterStop⟩
  | continueLoop (s : DotterRace) : s.pc = DotterPC.check → s.stopRequested = false →
      DotterStep s ⟨DotterPC.emit, s.stopRequested, s.stopReturned, s.dotsAfterStop⟩
  | writeDot (s : DotterRace) : s.pc = DotterPC.emit →
      DotterStep s ⟨DotterPC.sleep, s.stopRequested, s.stopReturned,
        s.dotsAfterStop + (if s.stopReturned then 1 else 0)⟩
  | wake (s : DotterRace) : s.pc = DotterPC.sleep →
      DotterStep s ⟨DotterPC.check, s.stopRequested, s.stopReturned, s.dotsAfterStop⟩
  | stopCall (s : DotterRace) : s.stopReturned = false →
      DotterStep s ⟨s.pc, true, true, s.dotsAfterStop⟩

/-- The state right after `DotterThread.start()`: the loop is at its event
test, the event is unset, `stop()` has not been called, no dot written. -/
def DotterRace.start : DotterRace := ⟨DotterPC.check, false, false, 0⟩

/-- States reachable from `DotterRace.start` under some interleaving. -/
inductive DotterReach : DotterRace → Prop where
  | refl : DotterReach DotterRace.start
  | step (s t : DotterRace) : DotterReach s → DotterStep s t → DotterReach t

/-- The behaviour Claim C4 ascribes to `NewLineManager.write`: emit the text
verbatim when interactive and ANSI-stripped when not, clear the line-start
flag, and append the raw (unstripped) text to the pending-line buffer. -/
def NewLineManager.writeClaimC4 (m : NewLineManager) (isatty : Bool) (s : String) :
    NewLineManager × List Ev :=
  if 0 < s.length then
    (⟨false, m.line ++ s⟩, [Ev.fdWrite (if isatty then s else strip_ansi s)])
  else (m, [])

/-- Claim C4 amended: the text appended to the pending-line buffer is the
emitted text — raw when interactive, ANSI-stripped when not. -/
def NewLineManager.writeClaimC4Amended (m : NewLineManager) (isatty : Bool) (s : String) :
    NewLineManager × List Ev :=
  if 0 < s.length then
    ((⟨false, m.line ++ (if isatty then s else strip_ansi s)⟩ : NewLineManager),
      [Ev.fdWrite (if isatty then s else strip_ansi s)])
  else (m, [])

lemma dataAppend (a b : String) : (a ++ b).data = a.data ++ b.data := by
  cases a; cases b; rfl

lemma logCount_append (a b : List Ev) : logCount (a ++ b) = logCount a + logCount b :=
  List.countP_append _ _ _

lemma logCount_write (m : NewLineManager) (i : Bool) (s : String) :
    logCount (m.write i s).2 = 0 := by
  unfold NewLineManager.write
  split <;> simp [logCount]

lemma write_flag (m : NewLineManager) (i : Bool) (s : String) (h : 0 < s.length) :
    (m.write i s).1.are_we_on_new_line = false := by
  unfold NewLineManager.write
  rw [if_pos h]

lemma logCount_new_line (m : NewLineManager) :
    logCount (m.new_line false false).2 =
      if m.are_we_on_new_line = true then 0 else 1 := by
  unfold NewLineManager.new_line
  cases hm : m.are_we_on_new_line <;> simp [logCount, hm]

lemma length_mid_space_pos (a b : String) : 0 < (a ++ " " ++ b).length := by
  obtain ⟨la⟩ := a
  obtain ⟨lb⟩ := b
  show 0 < (la ++ [' '] ++ lb).length
  simp

lemma etaStop_flag (i : Bool) (m : NewLineManager) (e : EtaThread) :
    (EtaThread.stop i m e).2.1.are_we_on_new_line = false :=
  write_flag _ _ _ (length_mid_space_pos _ _)

lemma etaStop_logCount (i : Bool) (m : NewLineManager) (e : EtaThread) :
    logCount (EtaThread.stop i m e).2.2 = 0 := by
  show logCount ((m.write i _).2 ++ _) = 0
  rw [logCount_append, logCount_write, logCount_write]

/-- Claim C1 (refuting the claim against the code): starting from the state
right after `DotterThread.start()`, there is an interleaving in which the
main thread's `stop()` call has already returned and the spinner loop still
writes a dot to the output stream afterwards.  `DotterThread.stop`
(terminal.py:135-136) only sets the stop event and returns without joining
the thread, so a loop iteration that has already passed its event test can
still perform its write. -/
theorem dotter_write_can_land_after_stop_returns :
    ∃ s : DotterRace, DotterReach s ∧ s.stopReturned = true ∧ 0 < s.dotsAfterStop := by
  have h1 : DotterReach ⟨DotterPC.emit, false, false, 0⟩ :=
    DotterReach.step _ _ DotterReach.refl (DotterStep.continueLoop _ rfl rfl)
  have h2 : DotterReach ⟨DotterPC.emit, true, true, 0⟩ :=
    DotterReach.step _ _ h1 (DotterStep.stopCall _ rfl)
  have h3 := DotterReach.step _ _ h2 (DotterStep.writeDot _ rfl)
  exact ⟨_, h3, rfl, by decide⟩

/-- Claim C5: `start(3)` yields state `(1, 3)`; the first three renders
produce the styled labels `(1/3) `, `(2/3) `, `(3/3) ` in order while
advancing `current`; the fourth render returns the empty string and leaves
the state `(4, 3)` unchanged, and because the state is unchanged the same
holds for every later render until `start` or `reset` intervenes. -/
theorem substeps_start3_render_sequence :
    Substeps.start ⟨0, -1⟩ 3 = (⟨1, 3⟩ : Substeps) ∧
    Substeps.str ⟨1, 3⟩ = (TerminalWriterConfig.substeps_style "(1/3) ", ⟨2, 3⟩) ∧
    Substeps.str ⟨2, 3⟩ = (TerminalWriterConfig.substeps_style "(2/3) ", ⟨3, 3⟩) ∧
    Substeps.str ⟨3, 3⟩ = (TerminalWriterConfig.substeps_style "(3/3) ", ⟨4, 3⟩) ∧
    Substeps.str ⟨4, 3⟩ = ("", ⟨4, 3⟩) := by
  decide

/-- Claim C4 counterexample: on a non-interactive destination, writing the
non-empty pure-escape text `\x1b[0m` appends its stripped form (the empty
string) to the pending-line buffer, not the raw text the claim requires. -/
theorem write_appends_stripped_not_raw :
    NewLineManager.write ⟨true, ""⟩ false "\x1b[0m" ≠
      NewLineManager.writeClaimC4 ⟨true, ""⟩ false "\x1b[0m" := by
  decide

/-- Claim C4 amended and proved: for non-empty text, `write` emits verbatim
when interactive and stripped when not, clears the line-start flag, and
appends the emitted (not necessarily raw) text to the pending-line buffer. -/
theorem write_behavior_amended (m : NewLineManager) (isatty : Bool) (s : String)
    (h : 0 < s.length) :
    NewLineManager.write m isatty s = NewLineManager.writeClaimC4Amended m isatty s := by
  unfold NewLineManager.write NewLineManager.writeClaimC4Amended
  rw [if_pos h]

/-- Witness for `write_behavior_amended` at a concrete non-empty input. -/
theorem write_behavior_amended_witness :
    0 < ("hi" : String).length ∧
      NewLineManager.write ⟨true, ""⟩ true "hi" =
        NewLineManager.writeClaimC4Amended ⟨true, ""⟩ true "hi" :=
  ⟨by decide, write_behavior_amended ⟨true, ""⟩ true "hi" (by decide)⟩

/-- Claim C9 counterexample: from a state already at line start, two
consecutive `new_line` calls with `force = false` emit zero newline
characters, not exactly one. -/
theorem double_newline_at_line_start_zero :
    countNewlines ((NewLineManager.new_line ⟨true, "x"⟩ false false).2 ++
      ((NewLineManager.new_line ⟨true, "x"⟩ false false).1.new_line false false).2) = 0 := by
  decide

/-- Claim C9 amended and proved: `new_line` with `force = false` is a no-op
at line start; the call is idempotent (the second of two consecutive calls is
always a no-op); and two consecutive calls emit exactly one newline when the
sink started off line, zero when it was already at line start. -/
theorem newline_idempotent_amended (m : NewLineManager) (sl : Bool) :
    (m.are_we_on_new_line = true → m.new_line false sl = (m, [])) ∧
    (m.new_line false sl).1.new_line false sl = ((m.new_line false sl).1, []) ∧
    countNewlines ((m.new_line false sl).2 ++
        ((m.new_line false sl).1.new_line false sl).2) =
      (if m.are_we_on_new_line = true then 0 else 1) := by
  have hone : ("\n" : String).data.count '\n' = 1 := by decide
  cases hm : m.are_we_on_new_line <;> cases sl <;>
    simp [NewLineManager.new_line, countNewlines, hm, hone]

/-- Witness for `newline_idempotent_amended`: the no-op case at a concrete
at-line-start state. -/
theorem newline_idempotent_amended_witness :
    (⟨true, "x"⟩ : NewLineManager).are_we_on_new_line = true ∧
      NewLineManager.new_line ⟨true, "x"⟩ false false = (⟨true, "x"⟩, []) :=
  ⟨rfl, (newline_idempotent_amended ⟨true, "x"⟩ false).1 rfl⟩

/-- Claim C3 counterexample: the very first `msg` call on a fresh writer
mirrors zero lines to the logger — the sink is already at line start, so the
defensive `new_line` is a no-op, and the line written by this call stays
pending until some later newline flushes it. -/
theorem first_msg_mirrors_no_line :
    logCount ((TerminalWriter.init true).msg "12:00:00" "hello").2 = 0 := by
  decide

/-- Claim C3 amended and proved: one `msg` call mirrors at most one stripped
line to the logger — exactly one when the sink is not at line start or a
countdown task is active (its stop writes make the line pending), and zero
when the sink is at line start with no active countdown. -/
theorem msg_log_mirror_count_amended (w : TerminalWriter) (ts text : String) :
    logCount (TerminalWriter.msg w ts text).2 =
      if w.etaTh = none ∧ w.out.are_we_on_new_line = true then 0 else 1 := by
  cases he : w.etaTh with
  | none =>
    simp only [TerminalWriter.msg, he, Eta.reset]
    rw [logCount_append, logCount_append, logCount_write, logCount_new_line]
    simp [logCount]
  | some e =>
    simp only [TerminalWriter.msg, he, Eta.reset]
    rw [logCount_append, logCount_append, etaStop_logCount, logCount_write,
      logCount_new_line, etaStop_flag]
    simp

/-- Claim C2 counterexample: with a countdown task active, `substeps`
(setSubsteps) leaves it running and `progress_dot_every_n_seconds`
(startSpinner) also leaves it running — neither operation stops the active
`EtaThread` or forces a newline, contradicting the claim that every public
operation first stops any active task. -/
theorem setSubsteps_leaves_countdown_running :
    ((((TerminalWriter.init true).eta "12:00:00" "work" 60).1).substeps 5).1.etaTh.isSome = true ∧
    ((((TerminalWriter.init true).eta "12:00:00" "work" 60).1).progress_dot_every_n_seconds
        1).1.etaTh.isSome = true := by
  decide

/-- Claim C2 amended and proved: the rendering operations `box`, `msg`,
`eta`, `done` and `scroll_lines` each begin with exactly the stop-and-flush
prologue (stop the spinner, stop the countdown with its final overwrite,
flush a pending newline) before emitting anything else, and their resulting
state has no running animation (for `eta`, no running spinner and a freshly
created countdown); `substeps` only arms the counter and
`progress_dot_every_n_seconds` only replaces the spinner, neither touching
the countdown task, the line state, or the output. -/
theorem facade_ops_stop_and_flush_amended (w : TerminalWriter) (ts text : String)
    (n secs : Int) (clear : Bool) :
    (∃ ev, (TerminalWriter.box w text).2 = (TerminalWriter.stopAndFlush w).2 ++ ev) ∧
    (TerminalWriter.box w text).1.dotter = false ∧
    (TerminalWriter.box w text).1.etaTh = none ∧
    (∃ ev, (TerminalWriter.msg w ts text).2 = (TerminalWriter.stopAndFlush w).2 ++ ev) ∧
    (TerminalWriter.msg w ts text).1.dotter = false ∧
    (TerminalWriter.msg w ts text).1.etaTh = none ∧
    (∃ ev, (TerminalWriter.eta w ts text secs).2 = (TerminalWriter.stopAndFlush w).2 ++ ev) ∧
    (TerminalWriter.eta w ts text secs).1.dotter = false ∧
    (∃ ev, (TerminalWriter.done w).2 = (TerminalWriter.stopAndFlush w).2 ++ ev) ∧
    (TerminalWriter.done w).1.dotter = false ∧
    (TerminalWriter.done w).1.etaTh = none ∧
    (∃ ev, (TerminalWriter.scroll_lines w n clear).2 = (TerminalWriter.stopAndFlush w).2 ++ ev) ∧
    (TerminalWriter.scroll_lines w n clear).1.2.dotter = false ∧
    (TerminalWriter.scroll_lines w n clear).1.2.etaTh = none ∧
    TerminalWriter.substeps w n =
      (⟨w.isatty, w.out, Substeps.start w.steps n, w.dotter, w.etaTh⟩, []) ∧
    TerminalWriter.progress_dot_every_n_seconds w n =
      (⟨w.isatty, w.out, w.steps, true, w.etaTh⟩, []) := by
  have hnone : ∀ (i : Bool) (m : NewLineManager) (th : Option EtaThread),
      (Eta.reset i m th).1 = none := by
    intro i m th; cases th <;> rfl
  refine ⟨⟨_, rfl⟩, rfl, hnone _ _ _, ⟨_, rfl⟩, rfl, hnone _ _ _, ⟨_, rfl⟩, rfl,
    ⟨[], (List.append_nil _).symm⟩, rfl, hnone _ _ _,
    ⟨[], (List.append_nil _).symm⟩, rfl, hnone _ _ _, rfl, rfl⟩

/-- Claim C10: `box`, `scroll_lines` and `done` each leave the substep
counter in its inactive state `(0, -1)`; in that state rendering yields the
empty prefix without changing the counter, so a line rendered after any of
these calls (here: via `done`) carries no substep prefix. -/
theorem box_scroll_done_reset_substeps (w : TerminalWriter) (text ts t2 : String)
    (n : Int) (c : Bool) :
    (TerminalWriter.box w text).1.steps = (⟨0, -1⟩ : Substeps) ∧
    (TerminalWriter.scroll_lines w n c).1.2.steps = (⟨0, -1⟩ : Substeps) ∧
    (TerminalWriter.done w).1.steps = (⟨0, -1⟩ : Substeps) ∧
    Substeps.str ⟨0, -1⟩ = ("", (⟨0, -1⟩ : Substeps)) ∧
    TerminalWriter.line (TerminalWriter.done w).1 ts t2 =
      (TerminalWriter.timestamp ts ++ " " ++ "" ++ t2, (⟨0, -1⟩ : Substeps)) := by
  refine ⟨rfl, rfl, rfl, by decide, ?_⟩
  simp [TerminalWriter.line, TerminalWriter.done, Substeps.str, Substeps.reset]

/-- Claim C7: requesting a scroll session with line count `-1` or with a
non-interactive destination selects the pass-through variant, whose `write`
emits exactly the pushed chunk followed by a newline (stripped when
non-interactive) and keeps no state; requesting line count `0` on an
interactive destination selects the discard variant, whose `write` changes
nothing and emits nothing. -/
theorem scroll_variant_selection (w : TerminalWriter) (n : Int) (clear : Bool)
    (m : NewLineManager) (txt : String) :
    (n = -1 ∨ w.isatty = false →
      (TerminalWriter.scroll_lines w n clear).1.1 = Scroller.dontScroll) ∧
    (n = 0 → w.isatty = true →
      (TerminalWriter.scroll_lines w n clear).1.1 = Scroller.devNull) ∧
    (DontScrollOutput.write w.isatty m txt).2 =
      [Ev.fdWrite (if w.isatty then txt ++ "\n" else strip_ansi (txt ++ "\n"))] ∧
    DevNullScroller.write m txt = (m, []) := by
  have hlen : 0 < (txt ++ "\n").length := by
    obtain ⟨l⟩ := txt
    show 0 < (l ++ ['\n']).length
    simp
  refine ⟨?_, ?_, ?_, rfl⟩
  · intro h
    show (if n = -1 ∨ w.isatty = false then Scroller.dontScroll
          else if n = 0 then Scroller.devNull else Scroller.scroll n) = _
    rw [if_pos h]
  · intro h0 htty
    show (if n = -1 ∨ w.isatty = false then Scroller.dontScroll
          else if n = 0 then Scroller.devNull else Scroller.scroll n) = _
    subst h0
    rw [if_neg, if_pos rfl]
    rintro (h | h)
    · exact absurd h (by decide)
    · rw [htty] at h
      exact absurd h (by decide)
  · unfold DontScrollOutput.write NewLineManager.write
    rw [if_pos hlen]

/-- Witness for `scroll_variant_selection`: concrete selections on a
non-interactive writer with line count 5 and an interactive writer with
line count 0. -/
theorem scroll_variant_selection_witness :
    (TerminalWriter.scroll_lines (TerminalWriter.init false) 5 false).1.1 =
        Scroller.dontScroll ∧
      (TerminalWriter.scroll_lines (TerminalWriter.init true) 0 false).1.1 =
        Scroller.devNull :=
  ⟨(scroll_variant_selection (TerminalWriter.init false) 5 false ⟨true, ""⟩ "x").1
      (Or.inr rfl),
    (scroll_variant_selection (TerminalWriter.init true) 0 false ⟨true, ""⟩ "x").2.1
      rfl rfl⟩

lemma breakChunksGo_flatten (width : Nat) :
    ∀ (fuel : Nat) (cs : List Char), cs.length ≤ fuel →
      (breakChunksGo width fuel cs).flatten = cs := by
  intro fuel
  induction fuel with
  | zero => intro cs h; simp [breakChunksGo]
  | succ f ih =>
    intro cs h
    by_cases hc : 0 < width ∧ width < cs.length
    · simp only [breakChunksGo]
      rw [if_pos hc, List.flatten_cons,
        ih _ (by rw [List.length_drop]; omega), List.take_append_drop]
    · simp only [breakChunksGo]
      rw [if_neg hc]
      simp

lemma breakChunksGo_ne_nil (width fuel : Nat) (cs : List Char) :
    breakChunksGo width fuel cs ≠ [] := by
  cases fuel <;> simp only [breakChunksGo]
  · simp
  · split <;> simp

lemma breakChunksGo_length_le (width : Nat) (hw : 0 < width) :
    ∀ (fuel : Nat) (cs : List Char), cs.length ≤ fuel →
      ∀ c ∈ breakChunksGo width fuel cs, c.length ≤ width := by
  intro fuel
  induction fuel with
  | zero =>
    intro cs h c hc
    simp only [breakChunksGo, List.mem_singleton] at hc
    subst hc
    omega
  | succ f ih =>
    intro cs h c hc
    by_cases hcond : 0 < width ∧ width < cs.length
    · simp only [breakChunksGo] at hc
      rw [if_pos hcond] at hc
      rcases List.mem_cons.mp hc with rfl | hmem
      · rw [List.length_take]
        exact Nat.min_le_left _ _
      · exact ih _ (by rw [List.length_drop]; omega) c hmem
    · simp only [breakChunksGo] at hc
      rw [if_neg hcond] at hc
      simp only [List.mem_singleton] at hc
      rw [hc]
      have hnlt : ¬ width < cs.length := fun hlt => hcond ⟨hw, hlt⟩
      omega

lemma breakChunksGo_dropLast (width : Nat) :
    ∀ (fuel : Nat) (cs : List Char),
      ∀ c ∈ (breakChunksGo width fuel cs).dropLast, c.length = width := by
  intro fuel
  induction fuel with
  | zero => intro cs c hc; simp [breakChunksGo] at hc
  | succ f ih =>
    intro cs c hc
    by_cases hcond : 0 < width ∧ width < cs.length
    · simp only [breakChunksGo] at hc
      rw [if_pos hcond] at hc
      obtain ⟨r, rs, hr⟩ :=
        List.exists_cons_of_ne_nil (breakChunksGo_ne_nil width f (cs.drop width))
      rw [hr, List.dropLast_cons₂, ← hr] at hc
      rcases List.mem_cons.mp hc with rfl | hmem
      · rw [List.length_take]
        exact Nat.min_eq_left (Nat.le_of_lt hcond.2)
      · exact ih _ c hmem
    · simp only [breakChunksGo] at hc
      rw [if_neg hcond] at hc
      simp at hc

lemma breakChunksGo_short (width fuel : Nat) (cs : List Char) (h : cs.length ≤ width) :
    breakChunksGo width fuel cs = [cs] := by
  cases fuel with
  | zero => rfl
  | succ f =>
    simp only [breakChunksGo]
    rw [if_neg]
    rintro ⟨-, hlt⟩
    omega

/-- Claim C6: `write` on an active scroll region with positive line count
stores exactly the old buffered lines plus the split-and-chunked text,
truncated to the most recent `line_count` lines; and the chunking of any
single line concatenates back to the line in order, produces only chunks of
at most the console width, makes every chunk except the last exactly the
console width, and leaves a line that already fits untouched. -/
theorem scroll_write_buffer_and_chunks (s : ScrollOutput) (m : NewLineManager)
    (isatty : Bool) (width : Nat) (txt : String) (l : List Char)
    (hc : 0 < s.line_count) (hw : 0 < width) :
    (ScrollOutput.write width isatty s m txt).1.lines =
      takeLast s.line_count.toNat
        (s.lines ++ ScrollOutput.split_and_break_into_lines width txt) ∧
    (breakChunks width l).flatten = l ∧
    ((breakChunks width l).all fun c => decide (c.length ≤ width)) = true ∧
    (((breakChunks width l).dropLast).all fun c => decide (c.length = width)) = true ∧
    (l.length ≤ width → breakChunks width l = [l]) := by
  refine ⟨?_, breakChunksGo_flatten width _ l le_rfl, ?_, ?_,
    fun h => breakChunksGo_short width l.length l h⟩
  · show pySliceFrom (-s.line_count) _ = _
    unfold pySliceFrom takeLast
    rw [if_neg (by omega)]
    simp
  · rw [List.all_eq_true]
    intro c hmem
    exact decide_eq_true
      (breakChunksGo_length_le width hw l.length l le_rfl c hmem)
  · rw [List.all_eq_true]
    intro c hmem
    exact decide_eq_true (breakChunksGo_dropLast width l.length l c hmem)

/-- Witness for `scroll_write_buffer_and_chunks` at concrete inputs. -/
theorem scroll_write_buffer_and_chunks_witness :
    0 < (⟨2, ["old"]⟩ : ScrollOutput).line_count ∧ 0 < 3 ∧
      ((ScrollOutput.write 3 true ⟨2, ["old"]⟩ ⟨true, ""⟩ "abcdefg\nx").1.lines =
          takeLast (⟨2, ["old"]⟩ : ScrollOutput).line_count.toNat
            ((⟨2, ["old"]⟩ : ScrollOutput).lines ++
              ScrollOutput.split_and_break_into_lines 3 "abcdefg\nx") ∧
        (breakChunks 3 "abcd".data).flatten = "abcd".data ∧
        ((breakChunks 3 "abcd".data).all fun c => decide (c.length ≤ 3)) = true ∧
        (((breakChunks 3 "abcd".data).dropLast).all fun c => decide (c.length = 3)) = true ∧
        ("abcd".data.length ≤ 3 → breakChunks 3 "abcd".data = ["abcd".data])) :=
  ⟨by decide, by decide,
    scroll_write_buffer_and_chunks ⟨2, ["old"]⟩ ⟨true, ""⟩ true 3 "abcdefg\nx"
      "abcd".data (by decide) (by decide)⟩

lemma dropThroughM_append (pre suf : List Char) (hm : 'm' ∉ pre) :
    dropThroughM (pre ++ 'm' :: suf) = some suf := by
  induction pre with
  | nil => simp [dropThroughM]
  | cons p ps ih =>
    have hp : p ≠ 'm' := fun h => hm (h ▸ List.mem_cons_self p ps)
    have hps : 'm' ∉ ps := fun h => hm (List.mem_cons_of_mem p h)
    simp only [List.cons_append, dropThroughM]
    rw [if_neg hp]
    exact ih hps

lemma stripAnsiGo_nil (fuel : Nat) : stripAnsiGo fuel [] = [] := by
  cases fuel <;> rfl

lemma stripAnsiGo_close (l : List Char) :
    ∀ fuel, esc ∉ l → l.length + 4 ≤ fuel →
      stripAnsiGo fuel (l ++ [esc, '[', '0', 'm']) = l := by
  induction l with
  | nil =>
    intro fuel h hf
    obtain ⟨f, rfl⟩ : ∃ f, fuel = f + 1 := ⟨fuel - 1, by omega⟩
    show stripAnsiGo (f + 1) (esc :: ['[', '0', 'm']) = []
    simp [stripAnsiGo, dropThroughM, stripAnsiGo_nil]
  | cons c l ih =>
    intro fuel h hf
    obtain ⟨f, rfl⟩ : ∃ f, fuel = f + 1 := ⟨fuel - 1, by omega⟩
    have hc : c ≠ esc := fun hh => h (hh ▸ List.mem_cons_self c l)
    have hl : esc ∉ l := fun hh => h (List.mem_cons_of_mem c hh)
    show stripAnsiGo (f + 1) (c :: (l ++ [esc, '[', '0', 'm'])) = c :: l
    simp only [stripAnsiGo]
    rw [if_neg hc, ih f hl (by simp only [List.length_cons] at hf; omega)]

lemma stripAnsiGo_esc (pre tail : List Char) (f : Nat) (hm : 'm' ∉ pre) :
    stripAnsiGo (f + 1) (esc :: (pre ++ 'm' :: tail)) = stripAnsiGo f tail := by
  have hdrop := dropThroughM_append pre tail hm
  simp [stripAnsiGo, hdrop]

lemma strip_colored (code : Nat) (t : String)
    (hm : 'm' ∉ ('[' :: (toString code).data))
    (ht : esc ∉ t.data) : strip_ansi (colored code t) = t := by
  obtain ⟨lt⟩ := t
  have hd : (colored code (String.mk lt)).data =
      esc :: (('[' :: (toString code).data) ++ 'm' :: (lt ++ [esc, '[', '0', 'm'])) := by
    simp [colored, dataAppend, esc]
  unfold strip_ansi
  rw [hd, List.length_cons, stripAnsiGo_esc _ _ _ hm,
    stripAnsiGo_close lt _ ht (by simp [List.length_append]; omega)]

/-- Claim C8: for every plain text — formalised as text containing no escape
character 0x1B — stripping ANSI escape sequences from the styled text
recovers the text exactly, for each of the six styling functions the system
uses. -/
theorem strip_style_roundtrip (t : String) (ht : esc ∉ t.data) :
    strip_ansi (TerminalWriterConfig.box_style t) = t ∧
    strip_ansi (TerminalWriterConfig.timestamp_bracket_style t) = t ∧
    strip_ansi (TerminalWriterConfig.timestamp_style t) = t ∧
    strip_ansi (TerminalWriterConfig.substeps_style t) = t ∧
    strip_ansi (TerminalWriterConfig.progress_dot_style t) = t ∧
    strip_ansi (TerminalWriterConfig.eta_style t) = t :=
  ⟨strip_colored 35 t (by decide) ht, strip_colored 37 t (by decide) ht,
    strip_colored 90 t (by decide) ht, strip_colored 90 t (by decide) ht,
    strip_colored 90 t (by decide) ht, strip_colored 90 t (by decide) ht⟩

/-- Witness for `strip_style_roundtrip` on a concrete escape-free text. -/
theorem strip_style_roundtrip_witness :
    esc ∉ ("build ok".data) ∧
      strip_ansi (TerminalWriterConfig.box_style "build ok") = "build ok" :=
  ⟨by decide, (strip_style_roundtrip "build ok" (by decide)).1⟩
